import Mathlib

/-!
Verification of the real-time event distribution and public-tunnel lifecycle
subsystem of the Education-Rating-System repository.

The Python sources embedded here:
  * `utils/journal_realtime.py` — `RealtimeEventBus` (versioned pub/sub bus);
  * `utils/journal_tunnel.py`   — URL extraction/validation, tunnel manager
    state machine (open/close/reconnect/rotation), path building;
  * `utils/journal_routes.py`   — the public-session gate inside
    `journal_checkin_page` and its helpers.

Machine integers are modelled as `Int` (Python ints are unbounded), Python
strings as `String`, fallible paths as `Option`/`Except`, the lock-protected
mutation regions of the tunnel manager as atomic transitions of an explicit
state type. External collaborators (the relational store, the OS process
table, `urllib.parse`'s hostname extraction for the snapshot URL) enter as
oracle parameters, mirroring the spec's declared component boundaries.
-/

namespace EduRating

/-! ## Python value scaffolding

`RealtimeEventBus` normalizes its key argument via `str(key or "")`; the key
may arrive as any Python value.  We model the values the claims mention:
strings, `None`, and ints, with Python truthiness and `str()` rendering. -/

/-- Python values that can be passed as an event-bus key. -/
inductive PyKey where
  | pstr (s : String)
  | pnone
  | pint (n : Int)
deriving DecidableEq

/-- Python truthiness of a `PyKey` (`bool(x)`): empty string, `None`, `0` are falsy. -/
def pyTruthy : PyKey → Bool
  | .pstr s => !s.isEmpty
  | .pnone => false
  | .pint n => n != 0

/-- Python `str()` rendering of a `PyKey`. -/
def pyStr : PyKey → String
  | .pstr s => s
  | .pnone => "None"
  | .pint n => toString n

/-- `str(key or "")` from `journal_realtime.py`: the normalized channel name. -/
def safeKey (k : PyKey) : String :=
  if pyTruthy k then pyStr k else ""

/-! ## RealtimeEventBus (`utils/journal_realtime.py`)

The bus state is the `_versions` dict: a total map `String → Int` where
absent keys read as `0` (`self._versions.get(safe_key, 0)`).  All three
methods take the condition-variable lock, so each is one atomic transition. -/

/-- The `_versions` dict of `RealtimeEventBus`, with the `.get(k, 0)` default
folded in: a total map from normalized keys to versions. -/
def Bus : Type := String → Int

/-- The freshly constructed bus: `self._versions = {}`, every key reads 0. -/
def emptyBus : Bus := fun _ => 0

/-- `RealtimeEventBus.get_version(key)`: reads the version of the normalized
key, 0 when never bumped. -/
def get_version (b : Bus) (key : PyKey) : Int :=
  b (safeKey key)

/-- `RealtimeEventBus.bump(key)`: increments the normalized key's version by
one (under the lock, then notifies all waiters). -/
def bump (b : Bus) (key : PyKey) : Bus :=
  fun s => if s = safeKey key then b s + 1 else b s

/-- A sequence of `bump` calls applied left-to-right (the lock serializes
concurrent bumps into such a sequence). -/
def bumpSeq (b : Bus) : List PyKey → Bus
  | [] => b
  | k :: ks => bumpSeq (bump b k) ks

/-! `wait_for_change(key, last_version, timeout)` loops: read the current
version under the lock; return it if it differs from `last_version`; return
it if the deadline has passed; otherwise block on the condition variable and
re-check.  We model the loop directly: iteration `i` observes version
`versionAt i` (the map's value for the key at that instant, shaped by
concurrent bumps) and remaining time `remainingAt i` (monotone decreasing
real time is abstracted to the observed `deadline - time.monotonic()`
values).  `fuel` bounds the unrolling; `none` means the loop has not yet
returned within `fuel` iterations. -/

/-- The `while True` loop of `RealtimeEventBus.wait_for_change`, starting at
iteration `i` with `fuel` iterations of budget. -/
def waitLoop (versionAt : Nat → Int) (remainingAt : Nat → Int)
    (lastVersion : Int) (i : Nat) : Nat → Option Int
  | 0 => none
  | fuel + 1 =>
    let current := versionAt i
    if current ≠ lastVersion then
      some current
    else if remainingAt i ≤ 0 then
      some current
    else
      waitLoop versionAt remainingAt lastVersion (i + 1) fuel

/-- `RealtimeEventBus.wait_for_change(key, last_version, timeout)`: the key is
normalized once (`safe_key = str(key or "")`), then the loop reads the map at
that key; `busAt i` is the `_versions` map at iteration `i` (shaped by
concurrent bumps), `remainingAt i` the observed `deadline - time.monotonic()`. -/
def wait_for_change (busAt : Nat → Bus) (key : PyKey) (lastVersion : Int)
    (remainingAt : Nat → Int) (fuel : Nat) : Option Int :=
  waitLoop (fun i => busAt i (safeKey key)) remainingAt lastVersion 0 fuel

/-! ## URL extraction and validation (`utils/journal_tunnel.py`)

`PUBLIC_URL_RE = https?://[^\s"'<>]+` scanned with `findall` (leftmost,
non-overlapping, greedy), `HOST_RE = \b([a-z0-9-]+\.(?:lhr\.life|localhost\.run))\b`
with `IGNORECASE` and `search` (leftmost match).  Characters are ASCII in all
tunnel output; Lean's ASCII character predicates model Python's. -/

/-- Python whitespace (`str.strip()`, regex `\s`) over ASCII text. -/
def pyIsSpace (c : Char) : Bool :=
  c = ' ' || c = '\t' || c = '\n' || c = '\r' || c = '\x0b' || c = '\x0c'

/-- Python `str.strip()` with no argument. -/
def pyStrip (s : String) : String :=
  (((s.data.dropWhile pyIsSpace).reverse.dropWhile pyIsSpace).reverse).asString

/-- Python `str.startswith`. -/
def strStartsWith (s pre : String) : Bool :=
  pre.data.isPrefixOf s.data

/-- Python `str.endswith`. -/
def strEndsWith (s suf : String) : Bool :=
  suf.data.isSuffixOf s.data

/-- The negated character class `[^\s"'<>]` of `PUBLIC_URL_RE`: these
characters stop a URL match. -/
def urlStopChar (c : Char) : Bool :=
  pyIsSpace c || c = '"' || c = '\'' || c = '<' || c = '>'

/-- `findall` of `PUBLIC_URL_RE` over the line: each match is a scheme
(`http://` or `https://`) followed by a maximal nonempty run of non-stop
characters; scanning resumes after each match.  The fuel argument only makes
the recursion structural: every step consumes at least one character, so
`fuel = length` is never exhausted. -/
def scanUrlsAux : Nat → List Char → List (List Char)
  | 0, _ => []
  | _, [] => []
  | fuel + 1, c :: rest =>
    if "https://".data.isPrefixOf (c :: rest) then
      let tail := (c :: rest).drop 8
      let run := tail.takeWhile (fun ch => !urlStopChar ch)
      if run.isEmpty then scanUrlsAux fuel rest
      else ("https://".data ++ run) :: scanUrlsAux fuel (tail.drop run.length)
    else if "http://".data.isPrefixOf (c :: rest) then
      let tail := (c :: rest).drop 7
      let run := tail.takeWhile (fun ch => !urlStopChar ch)
      if run.isEmpty then scanUrlsAux fuel rest
      else ("http://".data ++ run) :: scanUrlsAux fuel (tail.drop run.length)
    else scanUrlsAux fuel rest

/-- `PUBLIC_URL_RE.findall(text)`. -/
def scanUrls (cs : List Char) : List (List Char) :=
  scanUrlsAux cs.length cs

/-- `candidate = raw.rstrip("),.;]")`: the characters stripped from the right
of each raw match. -/
def candStripChar (c : Char) : Bool :=
  c = ')' || c = ',' || c = '.' || c = ';' || c = ']'

/-- Python `str.rstrip` over a fixed character set. -/
def pyRstrip (strip : Char → Bool) (s : List Char) : List Char :=
  (s.reverse.dropWhile strip).reverse

/-- `DISALLOWED_PUBLIC_HOSTS` from `journal_tunnel.py`. -/
def DISALLOWED_PUBLIC_HOSTS : List String := ["localhost.run", "admin.localhost.run"]

/-- `ALLOWED_PUBLIC_SUFFIXES` from `journal_tunnel.py`. -/
def ALLOWED_PUBLIC_SUFFIXES : List String := [".lhr.life", ".localhost.run"]

/-- Scheme characters accepted by `urllib.parse` (`scheme_chars`): letters,
digits, `+`, `-`, `.`. -/
def schemeBodyChar (c : Char) : Bool :=
  c.isAlpha || c.isDigit || c = '+' || c = '-' || c = '.'

/-- `_WHATWG_C0_CONTROL_OR_SPACE`: the characters `urlsplit` strips from the
left of the URL (code points `0x00`-`0x20`). -/
def isC0ControlOrSpace (c : Char) : Bool :=
  c.toNat ≤ 0x20

/-- `_UNSAFE_URL_BYTES_TO_REMOVE`: tab, CR and LF are removed from the whole
URL by `urlsplit`. -/
def isUnsafeUrlByte (c : Char) : Bool :=
  c = '\t' || c = '\r' || c = '\n'

/-- ASCII hexadecimal digit (`ipaddress._HEX_DIGITS`). -/
def isHexDigit (c : Char) : Bool :=
  c.isDigit || ('a' ≤ c && c ≤ 'f') || ('A' ≤ c && c ≤ 'F')

/-- Python `str.split(sep)` for a one-character separator: empty segments are
kept (`"::".split(':') == ['', '', '']`). -/
def pySplitOn (sep : Char) : List Char → List (List Char)
  | [] => [[]]
  | c :: cs =>
    if c = sep then [] :: pySplitOn sep cs
    else
      match pySplitOn sep cs with
      | [] => [[c]]
      | seg :: rest => (c :: seg) :: rest

/-- `IPv4Address._parse_octet` (CPython 3.11): nonempty, ASCII decimal digits
only, at most 3 characters, no leading zero unless the octet is `0`, value at
most 255. -/
def pyValidOctet (s : List Char) : Bool :=
  match s with
  | [] => false
  | c0 :: _ =>
    s.all Char.isDigit && s.length ≤ 3
      && (s = ['0'] || c0 ≠ '0')
      && s.foldl (fun a c => a * 10 + (c.toNat - '0'.toNat)) 0 ≤ 255

/-- Validity of `IPv4Address(str)` (CPython 3.11 `_ip_int_from_string`):
exactly four valid dotted octets.  (The `'/'` rejection is subsumed: `/` is
not a decimal digit.) -/
def pyValidIPv4 (s : List Char) : Bool :=
  !s.isEmpty &&
    (let octets := pySplitOn '.' s
     octets.length == 4 && octets.all pyValidOctet)

/-- `IPv6Address._parse_hextet`: hex digits only, at most 4 characters, and
nonempty (`int('', 16)` raises). -/
def pyValidHextet (s : List Char) : Bool :=
  !s.isEmpty && s.length ≤ 4 && s.all isHexDigit

/-- Validity of the IPv6 address part without a scope id, transliterating
CPython 3.11 `IPv6Address._ip_int_from_string`: at least 3 `:`-parts, an
optional embedded IPv4 suffix replaced by two hextets, at most 9 parts, at
most one interior `::` gap with the leading/trailing empty parts only
adjacent to it, at least one skipped group, and every remaining part a valid
hextet. -/
def pyValidIPv6NoScope (s : List Char) : Bool :=
  if s.isEmpty then false else
  let parts0 := pySplitOn ':' s
  if parts0.length < 3 then false else
  let lastPart := parts0.getLastD []
  let hasV4 := lastPart.contains '.'
  if hasV4 && !pyValidIPv4 lastPart then false else
  let parts := if hasV4 then parts0.dropLast ++ [['0'], ['0']] else parts0
  if parts.length > 9 then false else
  let interior := (parts.drop 1).dropLast
  if (interior.filter List.isEmpty).length > 1 then false else
  if (interior.filter List.isEmpty).length == 1 then
    let skipIdx := 1 + interior.findIdx List.isEmpty
    let headEmpty := (parts.headD ['x']).isEmpty
    let lastEmpty := (parts.getLastD ['x']).isEmpty
    let partsHi := if headEmpty then skipIdx - 1 else skipIdx
    let partsLo0 := parts.length - skipIdx - 1
    let partsLo := if lastEmpty then partsLo0 - 1 else partsLo0
    if headEmpty && partsHi ≠ 0 then false else
    if lastEmpty && partsLo ≠ 0 then false else
    if partsHi + partsLo ≥ 8 then false else
    (parts.take partsHi).all pyValidHextet
      && (parts.drop (parts.length - partsLo)).all pyValidHextet
  else
    if parts.length ≠ 8 then false else
    if (parts.headD ['x']).isEmpty then false else
    if (parts.getLastD ['x']).isEmpty then false else
    parts.all pyValidHextet

/-- Validity of `IPv6Address(str)` (CPython 3.11): rejects `/`, splits an
optional nonempty `%` scope id containing no further `%`, then validates the
address part. -/
def pyValidIPv6 (s : List Char) : Bool :=
  if s.contains '/' then false else
  let addr := s.takeWhile (fun c => c ≠ '%')
  match s.drop addr.length with
  | [] => pyValidIPv6NoScope addr
  | _ :: scope =>
    !scope.isEmpty && !scope.contains '%' && pyValidIPv6NoScope addr

/-- The IPvFuture shape `\Av[a-fA-F0-9]+\..+\Z` checked by
`_check_bracketed_host`: `v`, a nonempty hex run, `.`, then a nonempty
remainder (`.` in the pattern matches anything but a newline, and newlines
were already removed from the URL). -/
def pyValidIPvFuture (s : List Char) : Bool :=
  match s with
  | 'v' :: rest =>
    let run := rest.takeWhile isHexDigit
    (match rest.drop run.length with
     | '.' :: tailPart =>
       !run.isEmpty && !tailPart.isEmpty && tailPart.all (fun c => c ≠ '\n')
     | _ => false)
  | _ => false

/-- `urllib.parse._check_bracketed_host` (CPython 3.11): a host starting with
`v` must be a valid IPvFuture literal; otherwise `ipaddress.ip_address` must
accept it and it must not be an IPv4 address. -/
def check_bracketed_host (h : List Char) : Bool :=
  match h with
  | 'v' :: _ => pyValidIPvFuture h
  | _ => !pyValidIPv4 h && pyValidIPv6 h

/-- The `hostname` property on a netloc (`_hostinfo` + lowercasing): the part
after the last `@`; inside the first bracket pair when a `[` is present, else
up to the first `:`; lowercased except that a `%` zone suffix keeps its
case. -/
def hostnameOf (netloc : List Char) : String :=
  let hostinfo := (netloc.reverse.takeWhile (fun c => c ≠ '@')).reverse
  let host :=
    if hostinfo.contains '[' then
      ((hostinfo.dropWhile (fun c => c ≠ '[')).drop 1).takeWhile (fun c => c ≠ ']')
    else hostinfo.takeWhile (fun c => c ≠ ':')
  let base := host.takeWhile (fun c => c ≠ '%')
  ((base.map Char.toLower) ++ host.drop base.length).asString

/-- `urllib.parse.urlparse` (CPython 3.11) restricted to the two fields the
code reads, with its `ValueError` paths modelled as `none`: the URL is
left-stripped of C0 controls and space and cleared of tab/CR/LF; a valid
scheme (leading letter, then `scheme_chars`) before the first `:` is split
off and lowercased; the netloc is taken after `//` up to `/?#`.  A netloc
with unbalanced brackets raises, as does a bracketed host that fails
`_check_bracketed_host` (computed from the netloc's first bracket pair).
The hostname is `hostnameOf` of the netloc, `""` standing for `None`.
(`_checknetloc` raises only on non-ASCII input, out of scope here.) -/
def urlparseSchemeHost (s : String) : Option (String × String) :=
  let cs := (s.data.dropWhile isC0ControlOrSpace).filter (fun c => !isUnsafeUrlByte c)
  let colonSplit := cs.takeWhile (fun c => c ≠ ':')
  let hasScheme :=
    colonSplit.length < cs.length &&
    (match colonSplit with
     | [] => false
     | c0 :: _ => c0.isAlpha && colonSplit.all schemeBodyChar)
  let scheme := if hasScheme then (colonSplit.map Char.toLower).asString else ""
  let rest := if hasScheme then cs.drop (colonSplit.length + 1) else cs
  if "//".data.isPrefixOf rest then
    let netloc := (rest.drop 2).takeWhile (fun c => c ≠ '/' && c ≠ '?' && c ≠ '#')
    if (netloc.contains '[' && !netloc.contains ']')
        || (netloc.contains ']' && !netloc.contains '[') then none
    else if netloc.contains '[' && netloc.contains ']' then
      let bracketed :=
        ((netloc.dropWhile (fun c => c ≠ '[')).drop 1).takeWhile (fun c => c ≠ ']')
      if check_bracketed_host bracketed then some (scheme, hostnameOf netloc)
      else none
    else some (scheme, hostnameOf netloc)
  else some (scheme, "")

/-- `is_valid_public_url(raw_url)` from `journal_tunnel.py`: `urlparse` inside
`try/except ValueError` (a raise yields `False`), then scheme must be
http/https, hostname nonempty, not deny-listed, and ending in an allowed
suffix.  The code applies its own `.lower()` to the whole hostname, which
also lowercases a `%` zone suffix that the `hostname` property preserves. -/
def is_valid_public_url (raw_url : String) : Bool :=
  match urlparseSchemeHost (pyStrip raw_url) with
  | none => false
  | some parsed =>
    let scheme := parsed.1
    let host := (parsed.2.data.map Char.toLower).asString
    if scheme ≠ "http" && scheme ≠ "https" then false
    else if host.isEmpty then false
    else if DISALLOWED_PUBLIC_HOSTS.contains host then false
    else ALLOWED_PUBLIC_SUFFIXES.any (fun suf => strEndsWith host suf)

/-- The `for raw in PUBLIC_URL_RE.findall(text)` loop of
`extract_public_url`: first candidate (right-stripped) passing
`is_valid_public_url`. -/
def findValidCandidate : List (List Char) → Option String
  | [] => none
  | raw :: rest =>
    let candidate := (pyRstrip candStripChar raw).asString
    if is_valid_public_url candidate then some candidate
    else findValidCandidate rest

/-- Word characters for the regex `\b` boundary (ASCII). -/
def isWordChar (c : Char) : Bool := c.isAlphanum || c = '_'

/-- The character class `[a-z0-9-]` of `HOST_RE` under `IGNORECASE`. -/
def isHostRunChar (c : Char) : Bool := c.isAlpha || c.isDigit || c = '-'

/-- Case-insensitive prefix test against an ASCII pattern. -/
def startsWithCI (pat : String) (t : List Char) : Bool :=
  pat.data.isPrefixOf ((t.take pat.length).map Char.toLower)

/-- After the final matched character (a word character), `\b` holds iff the
input ends or the next character is not a word character. -/
def boundaryAfterWord : List Char → Bool
  | [] => true
  | c :: _ => !isWordChar c

/-- One match attempt of `HOST_RE` at a position, given the previous
character.  The greedy `[a-z0-9-]+` must take its maximal run: a shorter run
would leave a class character where the literal `.` is required, so only the
maximal run can continue the match. -/
def hostMatchAt (prev : Option Char) (t : List Char) : Option (List Char) :=
  match t with
  | [] => none
  | c :: _ =>
    if !isHostRunChar c then none
    else
      let prevWord := match prev with | none => false | some p => isWordChar p
      if prevWord == isWordChar c then none
      else
        let run := t.takeWhile isHostRunChar
        let k := run.length
        let tail := t.drop k
        if startsWithCI ".lhr.life" tail && boundaryAfterWord (tail.drop 9) then
          some ((t.take (k + 9)).map Char.toLower)
        else if startsWithCI ".localhost.run" tail && boundaryAfterWord (tail.drop 14) then
          some ((t.take (k + 14)).map Char.toLower)
        else none

/-- `HOST_RE.search(text)` with `group(1).lower()`: leftmost match position
wins. -/
def hostSearchAux (prev : Option Char) : List Char → Option (List Char)
  | [] => none
  | c :: cs =>
    match hostMatchAt prev (c :: cs) with
    | some g => some g
    | none => hostSearchAux (some c) cs

/-- The `HOST_RE` fallback of `extract_public_url`. -/
def hostSearch (text : List Char) : Option String :=
  (hostSearchAux none text).map List.asString

/-- `extract_public_url(line)` from `journal_tunnel.py`: first valid URL among
the regex matches, else `https://` prepended to the first bare allow-listed
hostname found, else `None`. -/
def extract_public_url (line : String) : Option String :=
  match findValidCandidate (scanUrls line.data) with
  | some c => some c
  | none =>
    match hostSearch line.data with
    | some host =>
      let candidate := "https://" ++ host
      if is_valid_public_url candidate then some candidate else none
    | none => none

/-- The URL-latching portion of `JournalTunnelManager._reader_loop`: each raw
line is cleaned (`ANSI_ESCAPE_RE.sub` + carriage-return removal + strip,
abstracted as `clean`), empty lines are skipped, and `extract_public_url` is
consulted only while `public_url` is still unset. -/
def readerLatch (clean : String → String) (st : Option String) : List String → Option String
  | [] => st
  | raw :: rest =>
    let line := clean raw
    if line.isEmpty then readerLatch clean st rest
    else
      match st with
      | some u => readerLatch clean (some u) rest
      | none =>
        match extract_public_url line with
        | some u => readerLatch clean (some u) rest
        | none => readerLatch clean none rest

/-- Python `str.rstrip('/')`. -/
def rstripSlash (s : String) : String :=
  ((s.data.reverse.dropWhile (fun c => c = '/')).reverse).asString

/-- `JournalTunnelManager.build_public_url_for_path(path)`: normalize the path
to start with `/` (empty/whitespace-only becomes `/`), return `""` when no
public URL is latched, else the right-slash-stripped base followed by the
path. -/
def build_public_url_for_path (public_url : Option String) (path : String) : String :=
  let safe0 := pyStrip path
  let safe1 := if safe0.isEmpty then "/" else safe0
  let safePath := if strStartsWith safe1 "/" then safe1 else "/" ++ safe1
  let base := pyStrip (public_url.getD "")
  if base.isEmpty then "" else rstripSlash base ++ safePath

/-- The path normalization exactly as the specification words it: the path
normalized to begin with `/`, with the empty or whitespace-only path
normalizing to `/`. -/
def specNormalizePath (path : String) : String :=
  let t := pyStrip path
  if t.isEmpty then "/" else if strStartsWith t "/" then t else "/" ++ t

/-! ## Tunnel manager state machine (`utils/journal_tunnel.py`)

`JournalTunnelManager`'s fields that the claims are about.  The process
handle is abstracted to the value of `_is_running()` (`process is not None
and process.poll() is None`); the log ring buffer and the `local_host` /
`local_port` fields play no role in any claim and are omitted.  Every lock
protected region of the Python code becomes one atomic transition. -/

/-- Python truthiness of an optional string field (`if self.public_url:`). -/
def optTruthy : Option String → Bool
  | none => false
  | some s => !s.isEmpty

/-- CPython `int(str)` on ASCII input: optional surrounding whitespace, an
optional sign, then digits with single underscores allowed strictly between
digits.  `none` models `ValueError`. -/
def pyDigitsRest : List Char → Bool
  | [] => true
  | '_' :: [] => false
  | '_' :: c :: rest => c.isDigit && pyDigitsRest rest
  | c :: rest => c.isDigit && pyDigitsRest rest

/-- Validity of the digit part accepted by CPython `int`. -/
def pyDigitsValid : List Char → Bool
  | [] => false
  | c :: rest => c.isDigit && pyDigitsRest rest

/-- CPython `int(str)`; see `pyDigitsRest`. -/
def pyIntParse (s : String) : Option Int :=
  let t := ((s.data.dropWhile pyIsSpace).reverse.dropWhile pyIsSpace).reverse
  let signAndDigits : Int × List Char :=
    match t with
    | '+' :: rest => (1, rest)
    | '-' :: rest => (-1, rest)
    | _ => (1, t)
  if pyDigitsValid signAndDigits.2 then
    some (signAndDigits.1 *
      (signAndDigits.2.filter Char.isDigit).foldl
        (fun a c => a * 10 + ((c.toNat - '0'.toNat : Nat) : Int)) 0)
  else none

/-- The `TUNNEL_REFRESH_SECONDS` environment variable as seen by
`os.environ.get`. -/
inductive EnvVal where
  | absent
  | val (s : String)
deriving DecidableEq

/-- `int(os.environ.get("TUNNEL_REFRESH_SECONDS", "300"))` with the
`ValueError` fallback to 300 from `JournalTunnelManager.__init__`. -/
def refreshSecondsOf (env : EnvVal) : Int :=
  match env with
  | .absent => 300
  | .val s => (pyIntParse s).getD 300

/-- The `JournalTunnelManager` fields the claims range over. -/
structure TState where
  processRunning : Bool
  public_url : Option String
  error_message : Option String
  closing : Bool
  next_refresh_at : Option Int
  allow_reconnect : Bool
  reconnecting : Bool
  refresh_interval_seconds : Int
deriving DecidableEq

/-- `JournalTunnelManager.__init__` (the spawned refresh thread is modelled
by `TEvent.rotationFire` transitions). -/
def initTState (env : EnvVal) : TState :=
  { processRunning := false
    public_url := none
    error_message := none
    closing := false
    next_refresh_at := none
    allow_reconnect := false
    reconnecting := false
    refresh_interval_seconds := max 60 (refreshSecondsOf env) }

/-- `JournalTunnelManager._reset_runtime` (the `clear_logs` flag only touches
the unmodelled log buffer). -/
def reset_runtime (s : TState) : TState :=
  { s with processRunning := false
           public_url := none
           error_message := none
           closing := false
           next_refresh_at := none }

/-- The fields of `JournalTunnelManager.snapshot()` that the claims mention
(`local_host`/`local_port` are omitted with their source fields). -/
structure TunnelSnapshot where
  active : Bool
  public_url : Option String
  error_message : Option String
  reconnecting : Bool
  next_refresh_epoch : Option Int
  refresh_interval_seconds : Int
deriving DecidableEq

/-- `JournalTunnelManager.snapshot()`: an immutable copy of current state. -/
def snapshot (s : TState) : TunnelSnapshot :=
  { active := s.processRunning
    public_url := s.public_url
    error_message := s.error_message
    reconnecting := s.reconnecting
    next_refresh_epoch :=
      match s.next_refresh_at with
      | some t => if t ≠ 0 then some t else none
      | none => none
    refresh_interval_seconds := s.refresh_interval_seconds }

/-- `JournalTunnelManager._start_reconnect_unlocked`: the only entry point
that starts a reconnect worker thread.  The returned flag records whether
`threading.Thread(target=self._reconnect_worker).start()` ran. -/
def start_reconnect_unlocked (s : TState) : TState × Bool :=
  if !s.allow_reconnect || s.reconnecting then (s, false)
  else ({ s with reconnecting := true }, true)

/-- The synchronous result of `JournalTunnelManager.open` before/at the spawn
point: `sshMissing` is the `shutil.which` failure, `successActive` the
idempotent `True, "Public URL active: ..."` return, `stillStarting` the
`False, "Tunnel is starting..."` return, `spawned` means a new child process
was created, `spawnFailed` the `OSError` branch of `subprocess.Popen`. -/
inductive OpenOutcome where
  | sshMissing
  | successActive
  | stillStarting
  | spawned
  | spawnFailed
deriving DecidableEq

/-- The first locked region of `JournalTunnelManager.open` (lines 218-275):
the `shutil.which` gate, `allow_reconnect = True`, the already-running
branches, and otherwise the runtime reset plus process spawn.  `sshAvailable`
and `spawnOk` are the OS oracles for `shutil.which("ssh")` and
`subprocess.Popen`. -/
def open_locked (sshAvailable spawnOk : Bool) (s : TState) : OpenOutcome × TState :=
  if !sshAvailable then (.sshMissing, s)
  else
    let s1 := { s with allow_reconnect := true }
    if s1.processRunning then
      if optTruthy s1.public_url then (.successActive, s1)
      else (.stillStarting, s1)
    else
      let s2 := { reset_runtime s1 with error_message := none }
      if spawnOk then (.spawned, { s2 with processRunning := true })
      else (.spawnFailed, s2)

/-- Outcome of the `self.open(wait_seconds=18.0)` call inside the rotation
scheduler: URL latched within the wait budget, still starting, or exited. -/
inductive RotReopen where
  | okUrl (u : String) (now : Int)
  | failStillRunning
  | failExited
deriving DecidableEq

/-- `JournalTunnelManager.close(manual)`; `termOk` is the OS oracle for
`terminate`/`kill` succeeding. -/
def closeStep (manual termOk : Bool) (s : TState) : TState × Bool :=
  let s1 := if manual then { s with allow_reconnect := false } else s
  if !s1.processRunning then (reset_runtime s1, false)
  else if termOk then ({ reset_runtime s1 with reconnecting := false }, false)
  else ({ s1 with closing := false }, false)

/-- The URL-latching locked region of `_reader_loop` (lines 189-197): only
while `public_url` is unset and the parsed URL is truthy does the manager
latch it and arm the refresh deadline. -/
def urlLatchStep (u : String) (now : Int) (s : TState) : TState :=
  if optTruthy s.public_url then s
  else if u.isEmpty then s
  else
    { s with public_url := some u
             next_refresh_at := some (now + s.refresh_interval_seconds)
             error_message := none }

/-- The `finally` locked region of `_reader_loop` (lines 202-216), entered
when the child process has exited: records a diagnostic and calls
`_start_reconnect_unlocked`.  `isCurrent` models `self.process is proc`; only
then does the exit concern the manager's current process (a stale reader's
exit leaves the current process untouched). -/
def readerExitStep (rc : Int) (isCurrent : Bool) (s : TState) : TState × Bool :=
  let s0 := if isCurrent then { s with processRunning := false } else s
  if isCurrent && !s0.closing then
    let s1 := { s0 with next_refresh_at := none }
    let s2 :=
      if s1.error_message = none then
        { s1 with error_message := some (
            if rc = 0 then "SSH-сессия завершилась. Запускаю переподключение."
            else "SSH завершился с кодом " ++ toString rc ++
              ". Проверьте ssh/интернет и доступность localhost.run.") }
      else s1
    start_reconnect_unlocked s2
  else (s0, false)

/-- One iteration of `_refresh_loop` (lines 329-382) taken atomically: the
guard, then `close(manual=False)`, then `self.open`, then the outcome
handling (with the diagnostic strings abbreviated to their fixed prefixes).
`due` models `time.time() >= next_refresh_at`. -/
def rotationStep (due closeOk : Bool) (r : RotReopen) (s : TState) : TState × Bool :=
  if !s.allow_reconnect || s.closing || s.reconnecting || !s.processRunning
      || s.next_refresh_at = none || !due then (s, false)
  else
    let s1 := { s with reconnecting := true
                       error_message := some "Scheduled public link rotation in progress..." }
    if !closeOk then
      ({ (closeStep false false s1).1 with
          reconnecting := false
          error_message := some "Failed to close tunnel for rotation." }, false)
    else
      let s3 := (closeStep false true s1).1
      match r with
      | .okUrl u now =>
        ({ s3 with allow_reconnect := true
                   processRunning := true
                   public_url := some u
                   next_refresh_at := some (now + s3.refresh_interval_seconds)
                   reconnecting := false
                   error_message := none }, false)
      | .failStillRunning =>
        ({ s3 with allow_reconnect := true
                   processRunning := true
                   reconnecting := false
                   error_message := some "Public URL is still updating. Please wait a few seconds." }, false)
      | .failExited =>
        start_reconnect_unlocked
          { s3 with allow_reconnect := true
                    reconnecting := false
                    error_message := some "Automatic public URL refresh failed." }

/-- The lock-atomic transitions of the tunnel manager. -/
inductive TEvent where
  | openCall (sshAvailable spawnOk : Bool)
  | urlLatched (u : String) (now : Int)
  | readerExit (rc : Int) (isCurrent : Bool)
  | closeCall (manual termOk : Bool)
  | rotationFire (due closeOk : Bool) (r : RotReopen)
deriving DecidableEq

/-- Step function: next state plus whether the transition started a
reconnect worker thread. -/
def tstep (s : TState) : TEvent → TState × Bool
  | .openCall ssh spawn => ((open_locked ssh spawn s).2, false)
  | .urlLatched u now => (urlLatchStep u now s, false)
  | .readerExit rc cur => readerExitStep rc cur s
  | .closeCall m t => closeStep m t s
  | .rotationFire due cOk r => rotationStep due cOk r s

/-- Is the event an explicit `open` call? -/
def isOpenCall : TEvent → Bool
  | .openCall _ _ => true
  | _ => false

/-- Run a sequence of transitions, recording whether any of them started a
reconnect worker. -/
def runWithWorkers (s : TState) : List TEvent → TState × Bool
  | [] => (s, false)
  | e :: es =>
    let r := tstep s e
    let rest := runWithWorkers r.1 es
    (rest.1, r.2 || rest.2)

/-- `JournalTunnelManager._emit_state_change`: reads the installed callback,
invokes it, and swallows any exception (`except Exception: pass`).  The
callback is modelled as a possibly-failing computation; the manager state is
passed through. -/
def emit_state_change (on_change : Option (Unit → Except String Unit)) (s : TState) :
    Except String TState :=
  match on_change with
  | none => Except.ok s
  | some callback =>
    match callback () with
    | Except.ok _ => Except.ok s
    | Except.error _ => Except.ok s

/-! ## Public-session gate (`utils/journal_routes.py`, `journal_checkin_page`)

The non-local branch of `journal_checkin_page` (lines 2405-2431) plus its
helpers `_is_public_tunnel_host`, `_active_public_session_exists` (a database
oracle here, per the spec's collaborator boundary) and the snapshot values it
reads.  `snap_public_host` is the `urlparse(...).hostname` oracle. -/

/-- `_is_public_tunnel_host(host)` from `journal_routes.py`. -/
def is_public_tunnel_host (host : String) : Bool :=
  let safe := ((pyStrip host).data.map Char.toLower).asString
  strEndsWith safe ".lhr.life" || strEndsWith safe ".localhost.run"

/-- Everything the gate block of `journal_checkin_page` reads. -/
structure GateEnv where
  active_public_key : String
  current_key : String
  snap_active : Bool
  snap_public_url : String
  snap_public_host : String
  request_hosts : List String
  key_exists : String → Bool

/-- `snap_public_host` after the `if snap_public_url else ""` guard. -/
def gate_snap_host (e : GateEnv) : String :=
  if e.snap_public_url.isEmpty then "" else e.snap_public_host

/-- `tunnel_is_active = bool(snap.get("active")) and bool(snap_public_url)`. -/
def gate_tunnel_is_active (e : GateEnv) : Bool :=
  e.snap_active && !e.snap_public_url.isEmpty

/-- `request_via_active_tunnel`. -/
def gate_request_via_active_tunnel (e : GateEnv) : Bool :=
  gate_tunnel_is_active e && !(gate_snap_host e).isEmpty
    && e.request_hosts.contains (gate_snap_host e)

/-- `request_via_tunnel_host`. -/
def gate_request_via_tunnel_host (e : GateEnv) : Bool :=
  e.request_hosts.any is_public_tunnel_host

/-- `not active_public_key or not _active_public_session_exists(active_public_key)`,
the recovery condition shared by `can_recover_active_key` and the adoption
`if`. -/
def gate_key_missing (e : GateEnv) : Bool :=
  e.active_public_key.isEmpty || !e.key_exists e.active_public_key

/-- `can_recover_active_key`. -/
def gate_can_recover (e : GateEnv) : Bool :=
  gate_tunnel_is_active e &&
    (gate_request_via_active_tunnel e || gate_request_via_tunnel_host e
      || gate_key_missing e)

/-- The adoption condition: `can_recover_active_key and (not active_public_key
or not _active_public_session_exists(active_public_key))`. -/
def gate_adopt (e : GateEnv) : Bool :=
  gate_can_recover e && gate_key_missing e

/-- Result of the gate block: whether the "Эта QR-ссылка сейчас неактивна"
rejection fires, the stored key after the block, and whether this request
adopted the key. -/
structure GateResult where
  rejected : Bool
  new_active_key : String
  adopted : Bool
deriving DecidableEq

/-- The gate block of `journal_checkin_page` for a non-local request whose
token resolved to a session and lesson. -/
def public_session_gate (e : GateEnv) : GateResult :=
  let key1 := if gate_adopt e then e.current_key else e.active_public_key
  { rejected := key1.isEmpty || key1 != e.current_key
    new_active_key := key1
    adopted := gate_adopt e }

/-! ## Theorems -/

/-- Helper: a bump leaves every other normalized channel untouched. -/
theorem get_version_bumpSeq_not_mem (ks : List PyKey) (b : Bus) (k : PyKey)
    (h : safeKey k ∉ ks.map safeKey) :
    get_version (bumpSeq b ks) k = get_version b k := by
  induction ks generalizing b with
  | nil => rfl
  | cons k' ks ih =>
    simp only [List.map_cons, List.mem_cons, not_or] at h
    have hkk : safeKey k ≠ safeKey k' := h.1
    have := ih (bump b k') h.2
    simp only [bumpSeq]
    rw [this]
    simp [get_version, bump, hkk]

/-- Helper: `N` bumps of the same key add exactly `N`. -/
theorem get_version_bumpSeq_replicate (n : ℕ) (b : Bus) (k : PyKey) :
    get_version (bumpSeq b (List.replicate n k)) k = get_version b k + n := by
  induction n generalizing b with
  | zero => simp [bumpSeq]
  | succ m ih =>
    simp only [List.replicate_succ, bumpSeq]
    rw [ih (bump b k)]
    simp [get_version, bump]
    ring

/-- Helper: bumps never decrease any channel's version. -/
theorem get_version_le_bumpSeq (ks : List PyKey) (b : Bus) (k : PyKey) :
    get_version b k ≤ get_version (bumpSeq b ks) k := by
  induction ks generalizing b with
  | nil => exact le_refl _
  | cons k' ks ih =>
    refine le_trans ?_ (ih (bump b k'))
    by_cases h : safeKey k = safeKey k'
    · simp [get_version, bump, h]
    · simp [get_version, bump, h]

/-- C3: a key never bumped reads version 0; `bump` adds exactly 1 to its own
normalized channel and leaves every other channel unchanged; hence `N` bumps
of the same key add exactly `N` (no lost updates under the serializing lock),
and versions never decrease across any sequence of bumps. -/
theorem bus_version_monotone_no_lost_updates :
    (∀ (ks : List PyKey) (k : PyKey), safeKey k ∉ ks.map safeKey →
        get_version (bumpSeq emptyBus ks) k = 0)
    ∧ (∀ (b : Bus) (k : PyKey), get_version (bump b k) k = get_version b k + 1)
    ∧ (∀ (b : Bus) (k k' : PyKey), safeKey k' ≠ safeKey k →
        get_version (bump b k) k' = get_version b k')
    ∧ (∀ (b : Bus) (k : PyKey) (n : ℕ),
        get_version (bumpSeq b (List.replicate n k)) k = get_version b k + n)
    ∧ (∀ (b : Bus) (ks : List PyKey) (k : PyKey),
        get_version b k ≤ get_version (bumpSeq b ks) k) := by
  refine ⟨?_, ?_, ?_, ?_, ?_⟩
  · intro ks k h
    rw [get_version_bumpSeq_not_mem ks emptyBus k h]
    rfl
  · intro b k
    simp [get_version, bump]
  · intro b k k' h
    simp [get_version, bump, h]
  · intro b k n
    exact get_version_bumpSeq_replicate n b k
  · intro b ks k
    exact get_version_le_bumpSeq ks b k

/-- Witness for C3 at concrete inputs. -/
theorem bus_version_witness :
    get_version (bumpSeq emptyBus [PyKey.pstr "a", PyKey.pstr "a"]) (PyKey.pstr "b") = 0
    ∧ get_version (bump emptyBus (PyKey.pstr "a")) (PyKey.pstr "b") = get_version emptyBus (PyKey.pstr "b") := by
  constructor
  · exact bus_version_monotone_no_lost_updates.1 [PyKey.pstr "a", PyKey.pstr "a"]
      (PyKey.pstr "b") (by decide)
  · exact bus_version_monotone_no_lost_updates.2.2.1 emptyBus (PyKey.pstr "a")
      (PyKey.pstr "b") (by decide)

/-- C10: every bus operation normalizes its key via `str(key or "")`, so the
falsy keys `None`, `""` and `0` all name the channel `""`: a bump through any
of them is observed through the others, and `wait_for_change` behaves
identically for all of them. -/
theorem falsy_keys_share_empty_channel :
    safeKey PyKey.pnone = "" ∧ safeKey (PyKey.pstr "") = "" ∧ safeKey (PyKey.pint 0) = ""
    ∧ (∀ b : Bus, get_version (bump b PyKey.pnone) (PyKey.pstr "")
        = get_version b (PyKey.pstr "") + 1)
    ∧ (∀ b : Bus, get_version (bump b (PyKey.pstr "")) PyKey.pnone
        = get_version b PyKey.pnone + 1)
    ∧ (∀ b : Bus, get_version (bump b (PyKey.pint 0)) PyKey.pnone
        = get_version b PyKey.pnone + 1)
    ∧ (∀ b : Bus, get_version b PyKey.pnone = get_version b (PyKey.pstr "")
        ∧ get_version b (PyKey.pint 0) = get_version b (PyKey.pstr ""))
    ∧ (∀ (busAt : Nat → Bus) (lastV : Int) (rem : Nat → Int) (fuel : Nat),
        wait_for_change busAt PyKey.pnone lastV rem fuel
          = wait_for_change busAt (PyKey.pstr "") lastV rem fuel)
    ∧ (∀ (busAt : Nat → Bus) (lastV : Int) (rem : Nat → Int) (fuel : Nat),
        wait_for_change busAt (PyKey.pint 0) lastV rem fuel
          = wait_for_change busAt (PyKey.pstr "") lastV rem fuel) := by
  refine ⟨rfl, rfl, rfl, ?_, ?_, ?_, ?_, ?_, ?_⟩
  · intro b; simp [get_version, bump, safeKey, pyTruthy, pyStr]
  · intro b; simp [get_version, bump, safeKey, pyTruthy, pyStr]
  · intro b; simp [get_version, bump, safeKey, pyTruthy, pyStr]
  · intro b; exact ⟨rfl, rfl⟩
  · intro busAt lastV rem fuel; rfl
  · intro busAt lastV rem fuel; rfl

/-- C8: `_emit_state_change` swallows every callback failure and returns
normally with the manager state untouched: it never propagates an exception
into the reader, scheduler or reconnect loops. -/
theorem emit_state_change_swallows_failures :
    ∀ (on_change : Option (Unit → Except String Unit)) (s : TState),
      emit_state_change on_change s = Except.ok s := by
  intro oc s
  cases oc with
  | none => rfl
  | some cb =>
    simp only [emit_state_change]
    cases cb () <;> rfl

/-- Helper: the wait loop under a constant version returns that version the
first time the remaining budget is exhausted. -/
theorem waitLoop_const_timeout (versionAt remainingAt : Nat → Int) (lastVersion : Int)
    (n : Nat) (hv : ∀ i, versionAt i = lastVersion)
    (hpos : ∀ j, j < n → 0 < remainingAt j) (hn : remainingAt n ≤ 0) :
    ∀ (fuel i : Nat), i ≤ n → n - i < fuel →
      waitLoop versionAt remainingAt lastVersion i fuel = some lastVersion := by
  intro fuel
  induction fuel with
  | zero => intro i _ h2; omega
  | succ f ih =>
    intro i hi hlt
    simp only [waitLoop, hv i, ne_eq, not_true_eq_false, if_false, ite_not]
    by_cases hri : remainingAt i ≤ 0
    · simp [hri]
    · have hin : i < n := by
        rcases Nat.lt_or_ge i n with h | h
        · exact h
        · have : i = n := le_antisymm hi h
          subst this
          omega
      simp only [hri, if_false]
      exact ih (i + 1) hin (by omega)

/-- Helper: while the version is unchanged and time remains, the wait loop
never returns. -/
theorem waitLoop_const_waiting (versionAt remainingAt : Nat → Int) (lastVersion : Int)
    (hv : ∀ i, versionAt i = lastVersion) (hpos : ∀ i, 0 < remainingAt i) :
    ∀ (fuel i : Nat), waitLoop versionAt remainingAt lastVersion i fuel = none := by
  intro fuel
  induction fuel with
  | zero => intro i; rfl
  | succ f ih =>
    intro i
    have hri : ¬ remainingAt i ≤ 0 := by have := hpos i; omega
    simp only [waitLoop, hv i, ne_eq, not_true_eq_false, if_false, ite_not, hri]
    exact ih (i + 1)

/-- C2: `wait_for_change(key, lastVersion, timeout)`: when the key's current
version already differs from `lastVersion`, it returns that version in its
first iteration, without waiting; when no bump changes the key's version, it
returns a value equal to `lastVersion`, and only once the remaining time is
exhausted — while time remains it keeps blocking. -/
theorem wait_for_change_spec :
    ∀ (busAt : Nat → Bus) (key : PyKey) (lastVersion : Int)
      (remainingAt : Nat → Int) (fuel : Nat),
      (busAt 0 (safeKey key) ≠ lastVersion →
        wait_for_change busAt key lastVersion remainingAt (fuel + 1)
          = some (busAt 0 (safeKey key)))
      ∧ (∀ n : Nat, (∀ i, busAt i (safeKey key) = lastVersion) →
          (∀ j, j < n → 0 < remainingAt j) → remainingAt n ≤ 0 → n < fuel →
          wait_for_change busAt key lastVersion remainingAt fuel = some lastVersion)
      ∧ ((∀ i, busAt i (safeKey key) = lastVersion) → (∀ i, 0 < remainingAt i) →
          wait_for_change busAt key lastVersion remainingAt fuel = none) := by
  intro busAt key lastVersion remainingAt fuel
  refine ⟨?_, ?_, ?_⟩
  · intro h
    simp [wait_for_change, waitLoop, h]
  · intro n hv hpos hn hfuel
    exact waitLoop_const_timeout _ remainingAt lastVersion n hv hpos hn fuel 0
      (Nat.zero_le n) (by omega)
  · intro hv hpos
    exact waitLoop_const_waiting _ remainingAt lastVersion hv hpos fuel 0

/-- Witness for C2 at concrete inputs. -/
theorem wait_for_change_witness :
    wait_for_change (fun _ => fun _ => 5) (PyKey.pstr "k") 3 (fun _ => 10) 3 = some 5
    ∧ wait_for_change (fun _ => fun _ => 3) (PyKey.pstr "k") 3 (fun j => 2 - (j : Int)) 4 = some 3
    ∧ wait_for_change (fun _ => fun _ => 3) (PyKey.pstr "k") 3 (fun _ => 1) 4 = none := by
  refine ⟨?_, ?_, ?_⟩
  · exact (wait_for_change_spec (fun _ => fun _ => 5) (PyKey.pstr "k") 3 (fun _ => 10) 2).1
      (by decide)
  · exact (wait_for_change_spec (fun _ => fun _ => 3) (PyKey.pstr "k") 3
      (fun j => 2 - (j : Int)) 4).2.1 2 (fun _ => rfl) (by intro j hj; omega) (by decide)
      (by decide)
  · exact (wait_for_change_spec (fun _ => fun _ => 3) (PyKey.pstr "k") 3 (fun _ => 1) 4).2.2
      (fun _ => rfl) (fun _ => by decide)

/-- Helper: no transition of the tunnel manager writes
`refresh_interval_seconds`; it is assigned only in `__init__`. -/
theorem tstep_preserves_refresh_interval (s : TState) (e : TEvent) :
    ((tstep s e).1).refresh_interval_seconds = s.refresh_interval_seconds := by
  cases e <;>
    simp only [tstep, open_locked, urlLatchStep, readerExitStep, closeStep, rotationStep,
      start_reconnect_unlocked, reset_runtime] <;>
    (repeat' split) <;> simp

/-- Helper: `refresh_interval_seconds` is preserved along any run. -/
theorem runEvents_preserves_refresh_interval (es : List TEvent) (s : TState) :
    ((runWithWorkers s es).1).refresh_interval_seconds = s.refresh_interval_seconds := by
  induction es generalizing s with
  | nil => rfl
  | cons e es ih =>
    simp only [runWithWorkers]
    rw [ih (tstep s e).1, tstep_preserves_refresh_interval]

/-- C9: at construction, `refresh_interval_seconds = max(60, parsed)` with 300
substituted when `TUNNEL_REFRESH_SECONDS` is absent or unparsable; no
transition modifies the field afterwards, so every snapshot along any run
reports at least the 60-second floor. -/
theorem refresh_interval_floor :
    ∀ (env : EnvVal) (s : TState) (e : TEvent) (es : List TEvent),
      (initTState env).refresh_interval_seconds = max 60 (refreshSecondsOf env)
      ∧ (initTState EnvVal.absent).refresh_interval_seconds = 300
      ∧ (∀ raw : String, pyIntParse raw = none →
          (initTState (EnvVal.val raw)).refresh_interval_seconds = 300)
      ∧ ((tstep s e).1).refresh_interval_seconds = s.refresh_interval_seconds
      ∧ (snapshot (runWithWorkers (initTState env) es).1).refresh_interval_seconds ≥ 60 := by
  intro env s e es
  refine ⟨rfl, rfl, ?_, tstep_preserves_refresh_interval s e, ?_⟩
  · intro raw h
    simp [initTState, refreshSecondsOf, h]
  · show ((runWithWorkers (initTState env) es).1).refresh_interval_seconds ≥ 60
    rw [runEvents_preserves_refresh_interval]
    simp [initTState]

/-- Witness for C9 at concrete inputs. -/
theorem refresh_interval_witness :
    (initTState (EnvVal.val "not-a-number")).refresh_interval_seconds = 300
    ∧ (snapshot (runWithWorkers (initTState (EnvVal.val "90"))
        [TEvent.openCall true true]).1).refresh_interval_seconds ≥ 60 := by
  constructor
  · exact (refresh_interval_floor EnvVal.absent (initTState EnvVal.absent)
      (TEvent.closeCall true true) []).2.2.1 "not-a-number" (by rfl)
  · exact (refresh_interval_floor (EnvVal.val "90") (initTState EnvVal.absent)
      (TEvent.closeCall true true) [TEvent.openCall true true]).2.2.2.2

/-- C4: calling `open` while the child process is running never spawns a new
process (the outcome is never `spawned`): with a latched public URL it
returns the idempotent success immediately, otherwise the "still starting"
failure; the only state change is `allow_reconnect = True`.  `sshAvailable`
is the `shutil.which("ssh")` oracle, true whenever a child is running. -/
theorem open_idempotent_when_running :
    ∀ (s : TState) (spawnOk : Bool), s.processRunning = true →
      (open_locked true spawnOk s).2 = { s with allow_reconnect := true }
      ∧ ((open_locked true spawnOk s).1 = OpenOutcome.successActive
          ↔ optTruthy s.public_url = true)
      ∧ ((open_locked true spawnOk s).1 = OpenOutcome.stillStarting
          ↔ optTruthy s.public_url = false)
      ∧ (open_locked true spawnOk s).1 ≠ OpenOutcome.spawned := by
  intro s spawnOk h
  cases htr : optTruthy s.public_url <;>
    simp [open_locked, h, htr]

/-- Witness for C4 at concrete inputs. -/
theorem open_idempotent_witness :
    (open_locked true true
      { processRunning := true, public_url := some "https://x.lhr.life",
        error_message := none, closing := false, next_refresh_at := some 5,
        allow_reconnect := false, reconnecting := false,
        refresh_interval_seconds := 300 }).1 = OpenOutcome.successActive
    ∧ (open_locked true true
      { processRunning := true, public_url := none,
        error_message := none, closing := false, next_refresh_at := none,
        allow_reconnect := true, reconnecting := false,
        refresh_interval_seconds := 300 }).1 = OpenOutcome.stillStarting := by
  constructor
  · exact (open_idempotent_when_running _ true rfl).2.1.mpr rfl
  · exact (open_idempotent_when_running _ true rfl).2.2.1.mpr rfl

/-- Helper: while `allow_reconnect` is false, no transition other than an
explicit `open` call re-enables it or starts a reconnect worker: the reader's
exit handler and the rotation scheduler are guarded by `allow_reconnect`
checks taken under the manager lock. -/
theorem tstep_reconnect_disabled (s : TState) (e : TEvent)
    (hA : s.allow_reconnect = false) (hO : isOpenCall e = false) :
    ((tstep s e).1).allow_reconnect = false ∧ (tstep s e).2 = false := by
  cases e with
  | openCall ssh spawn => simp [isOpenCall] at hO
  | urlLatched u now =>
    simp only [tstep, urlLatchStep]
    (repeat' split) <;> simp [hA]
  | readerExit rc cur =>
    simp only [tstep, readerExitStep, start_reconnect_unlocked]
    (repeat' split) <;> simp_all
  | closeCall m t =>
    simp only [tstep, closeStep, reset_runtime]
    (repeat' split) <;> simp_all
  | rotationFire due cOk r =>
    simp [tstep, rotationStep, hA]

/-- C5: after `close(manual=True)` the `allow_reconnect` flag is false and it
stays false across every subsequent transition that is not an explicit `open`
call — in particular the reader loop observing a process exit and the
rotation scheduler — and none of those transitions ever starts a reconnect
worker. -/
theorem no_auto_reconnect_after_manual_close :
    ∀ (s : TState) (termOk : Bool) (es : List TEvent),
      (∀ e ∈ es, isOpenCall e = false) →
      ((tstep s (TEvent.closeCall true termOk)).1).allow_reconnect = false
      ∧ ((runWithWorkers ((tstep s (TEvent.closeCall true termOk)).1) es).1).allow_reconnect = false
      ∧ (runWithWorkers ((tstep s (TEvent.closeCall true termOk)).1) es).2 = false := by
  intro s termOk es hes
  have h0 : ((tstep s (TEvent.closeCall true termOk)).1).allow_reconnect = false := by
    simp only [tstep, closeStep, reset_runtime]
    (repeat' split) <;> simp_all
  refine ⟨h0, ?_⟩
  have main : ∀ (l : List TEvent) (t : TState), t.allow_reconnect = false →
      (∀ e ∈ l, isOpenCall e = false) →
      ((runWithWorkers t l).1).allow_reconnect = false ∧ (runWithWorkers t l).2 = false := by
    intro l
    induction l with
    | nil => intro t ht _; exact ⟨ht, rfl⟩
    | cons e l ih =>
      intro t ht hl
      have he := hl e (List.mem_cons_self e l)
      have hstep := tstep_reconnect_disabled t e ht he
      have hrest := ih (tstep t e).1 hstep.1 (fun x hx => hl x (List.mem_cons_of_mem e hx))
      simp only [runWithWorkers]
      exact ⟨hrest.1, by rw [hstep.2, hrest.2]; rfl⟩
  exact main es _ h0 hes

/-- Witness for C5 at concrete inputs: a manual close followed by a process
exit, a due rotation tick, an automatic close and a latch attempt. -/
theorem no_auto_reconnect_witness :
    ((runWithWorkers
        ((tstep
          { processRunning := true, public_url := some "https://x.lhr.life",
            error_message := none, closing := false, next_refresh_at := some 5,
            allow_reconnect := true, reconnecting := false,
            refresh_interval_seconds := 300 }
          (TEvent.closeCall true true)).1)
        [TEvent.readerExit 1 true, TEvent.rotationFire true true RotReopen.failExited,
         TEvent.closeCall false true, TEvent.urlLatched "https://y.lhr.life" 7]).1).allow_reconnect
      = false
    ∧ (runWithWorkers
        ((tstep
          { processRunning := true, public_url := some "https://x.lhr.life",
            error_message := none, closing := false, next_refresh_at := some 5,
            allow_reconnect := true, reconnecting := false,
            refresh_interval_seconds := 300 }
          (TEvent.closeCall true true)).1)
        [TEvent.readerExit 1 true, TEvent.rotationFire true true RotReopen.failExited,
         TEvent.closeCall false true, TEvent.urlLatched "https://y.lhr.life" 7]).2 = false := by
  have h := no_auto_reconnect_after_manual_close
    { processRunning := true, public_url := some "https://x.lhr.life",
      error_message := none, closing := false, next_refresh_at := some 5,
      allow_reconnect := true, reconnecting := false,
      refresh_interval_seconds := 300 } true
    [TEvent.readerExit 1 true, TEvent.rotationFire true true RotReopen.failExited,
     TEvent.closeCall false true, TEvent.urlLatched "https://y.lhr.life" 7]
    (by decide)
  exact ⟨h.2.1, h.2.2⟩

/-- C7: `build_public_url_for_path` returns `""` when no public URL is
latched; otherwise it returns the latched base (trailing slashes removed)
concatenated with the path normalized to begin with `/`, the empty or
whitespace-only path normalizing to `/` (`specNormalizePath` states the
normalization in the specification's words).  Latched URLs carry no
surrounding whitespace, which the hypothesis `pyStrip base = base` records. -/
theorem build_public_url_for_path_spec :
    ∀ (path base : String),
      build_public_url_for_path none path = ""
      ∧ (pyStrip base = base → base ≠ "" →
          build_public_url_for_path (some base) path
            = rstripSlash base ++ specNormalizePath path) := by
  intro path base
  constructor
  · rfl
  · intro hs hne
    have hbe : base.isEmpty = false := by
      rw [Bool.eq_false_iff]
      intro hc
      exact hne ((String.isEmpty_iff base).mp hc)
    simp only [build_public_url_for_path, specNormalizePath, Option.getD_some, hs, hbe,
      Bool.false_eq_true, if_false]
    by_cases h0 : (pyStrip path).isEmpty
    · simp [h0]
      rfl
    · simp [h0]

/-- Witness for C7 at concrete inputs. -/
theorem build_public_url_witness :
    build_public_url_for_path none "qr" = ""
    ∧ build_public_url_for_path (some "https://a.lhr.life/") "qr"
        = rstripSlash "https://a.lhr.life/" ++ specNormalizePath "qr" := by
  constructor
  · exact (build_public_url_for_path_spec "qr" "x").1
  · exact (build_public_url_for_path_spec "qr" "https://a.lhr.life/").2 (by rfl) (by decide)

/-- Helper: the candidate loop of `extract_public_url` is `List.find?` over
the right-stripped matches. -/
theorem findValidCandidate_eq_find (raws : List (List Char)) :
    findValidCandidate raws
      = (raws.map (fun raw => (pyRstrip candStripChar raw).asString)).find?
          is_valid_public_url := by
  induction raws with
  | nil => rfl
  | cons r rs ih =>
    simp only [findValidCandidate, List.map_cons, List.find?_cons]
    by_cases h : is_valid_public_url ((pyRstrip candStripChar r).asString)
    · simp [h]
    · simp only [Bool.not_eq_true] at h
      simp [h, ih]

/-- Helper: once `public_url` is latched, later lines never replace it. -/
theorem readerLatch_keeps_url (clean : String → String) (u : String) (lines : List String) :
    readerLatch clean (some u) lines = some u := by
  induction lines with
  | nil => rfl
  | cons l ls ih =>
    simp only [readerLatch]
    split
    · exact ih
    · exact ih

/-- C6 counterexample: the line `"Forwarding abc.lhr.life"` contains no URL at
all (the URL regex finds nothing), yet `extract_public_url` returns
`https://abc.lhr.life` through the bare-hostname fallback — refuting "it
returns None when the line contains no such URL". -/
theorem extract_public_url_counterexample :
    scanUrls "Forwarding abc.lhr.life".data = []
    ∧ extract_public_url "Forwarding abc.lhr.life" = some "https://abc.lhr.life" := by
  exact ⟨rfl, rfl⟩

/-- C6 amended: `extract_public_url` returns the first URL match of the line
(right-stripped of closing punctuation) that passes `is_valid_public_url`
(scheme http/https, nonempty host, allowed suffix, not deny-listed); every
returned value passes `is_valid_public_url`; it returns `None` exactly when
no URL match validates AND the bare-hostname fallback (`HOST_RE`) finds no
valid host either; and the reader loop latches only the first such URL —
once `public_url` is set, later lines never replace it. -/
theorem extract_public_url_spec :
    ∀ (line : String) (clean : String → String) (u : String) (lines : List String),
      (∀ c, ((scanUrls line.data).map (fun raw => (pyRstrip candStripChar raw).asString)).find?
          is_valid_public_url = some c → extract_public_url line = some c)
      ∧ (∀ r, extract_public_url line = some r → is_valid_public_url r = true)
      ∧ (extract_public_url line = none ↔
          (((scanUrls line.data).map (fun raw => (pyRstrip candStripChar raw).asString)).find?
              is_valid_public_url = none
            ∧ ∀ h, hostSearch line.data = some h →
                is_valid_public_url ("https://" ++ h) = false))
      ∧ readerLatch clean (some u) lines = some u := by
  intro line clean u lines
  refine ⟨?_, ?_, ?_, readerLatch_keeps_url clean u lines⟩
  · intro c hc
    rw [← findValidCandidate_eq_find] at hc
    simp [extract_public_url, hc]
  · intro r hr
    rw [extract_public_url] at hr
    cases hfv : findValidCandidate (scanUrls line.data) with
    | some c =>
      rw [hfv] at hr
      cases hr
      have := findValidCandidate_eq_find (scanUrls line.data)
      rw [hfv] at this
      exact List.find?_some this.symm
    | none =>
      rw [hfv] at hr
      cases hhs : hostSearch line.data with
      | some h =>
        rw [hhs] at hr
        by_cases hv : is_valid_public_url ("https://" ++ h)
        · simp only [hv, if_true] at hr
          cases hr
          exact hv
        · simp only [Bool.not_eq_true] at hv
          simp [hv] at hr
      | none =>
        rw [hhs] at hr
        cases hr
  · constructor
    · intro hn
      rw [extract_public_url] at hn
      cases hfv : findValidCandidate (scanUrls line.data) with
      | some c => rw [hfv] at hn; cases hn
      | none =>
        rw [hfv] at hn
        refine ⟨by rw [← findValidCandidate_eq_find]; exact hfv, ?_⟩
        intro h hh
        rw [hh] at hn
        by_cases hv : is_valid_public_url ("https://" ++ h)
        · simp [hv] at hn
        · simp only [Bool.not_eq_true] at hv
          exact hv
    · rintro ⟨hfind, hfall⟩
      rw [← findValidCandidate_eq_find] at hfind
      rw [extract_public_url, hfind]
      cases hhs : hostSearch line.data with
      | some h => simp [hfall h hhs]
      | none => rfl

/-- Witness for C6 at concrete inputs. -/
theorem extract_public_url_witness :
    extract_public_url "ok https://x.lhr.life done" = some "https://x.lhr.life"
    ∧ readerLatch id (some "https://a.lhr.life") ["https://b.lhr.life"]
        = some "https://a.lhr.life" := by
  constructor
  · exact (extract_public_url_spec "ok https://x.lhr.life done" id "u" []).1
      "https://x.lhr.life" (by rfl)
  · exact (extract_public_url_spec "x" id "https://a.lhr.life" ["https://b.lhr.life"]).2.2.2

/-- C1 counterexample: the stored `ActivePublicSessionKey` names a different
(lesson, date) that still resolves to a real session, the request's host
equals the tunnel's currently-advertised public host (and is an allow-listed
relay host), yet the gate adopts nothing and rejects — refuting "the gate
adopts (L, D) as the new active key and the request proceeds" for that case. -/
theorem public_session_gate_counterexample :
    gate_request_via_active_tunnel
      { active_public_key := "1:2025-01-01", current_key := "2:2025-01-02",
        snap_active := true, snap_public_url := "https://abc.lhr.life",
        snap_public_host := "abc.lhr.life", request_hosts := ["abc.lhr.life"],
        key_exists := fun k => k == "1:2025-01-01" } = true
    ∧ gate_request_via_tunnel_host
      { active_public_key := "1:2025-01-01", current_key := "2:2025-01-02",
        snap_active := true, snap_public_url := "https://abc.lhr.life",
        snap_public_host := "abc.lhr.life", request_hosts := ["abc.lhr.life"],
        key_exists := fun k => k == "1:2025-01-01" } = true
    ∧ ("1:2025-01-01" : String) ≠ "2:2025-01-02"
    ∧ public_session_gate
      { active_public_key := "1:2025-01-01", current_key := "2:2025-01-02",
        snap_active := true, snap_public_url := "https://abc.lhr.life",
        snap_public_host := "abc.lhr.life", request_hosts := ["abc.lhr.life"],
        key_exists := fun k => k == "1:2025-01-01" }
      = { rejected := true, new_active_key := "1:2025-01-01", adopted := false } := by
  exact ⟨rfl, rfl, by decide, rfl⟩

/-- C1 amended: the gate adopts (L, D) if and only if the tunnel is active
with a latched public URL AND the stored key is unset or does not resolve to
a real existing session; adoption makes the request proceed with (L, D) as
the new active key.  The host-match conditions never enable adoption on
their own: whenever no adoption happens, the stored key is left unchanged
and the request is rejected with the "not currently active" message exactly
when that key is unset or differs from (L, D) — in particular a stored
different key that still resolves is rejected regardless of the request's
host. -/
theorem public_session_gate_spec :
    ∀ e : GateEnv,
      gate_adopt e = (gate_tunnel_is_active e && gate_key_missing e)
      ∧ (gate_adopt e = true → e.current_key ≠ "" →
          public_session_gate e
            = { rejected := false, new_active_key := e.current_key, adopted := true })
      ∧ (gate_adopt e = false →
          public_session_gate e
            = { rejected := e.active_public_key.isEmpty
                  || e.active_public_key != e.current_key,
                new_active_key := e.active_public_key, adopted := false }) := by
  intro e
  refine ⟨?_, ?_, ?_⟩
  · have tau : ∀ a v1 v2 m : Bool, ((a && (v1 || v2 || m)) && m) = (a && m) := by decide
    exact tau (gate_tunnel_is_active e) (gate_request_via_active_tunnel e)
      (gate_request_via_tunnel_host e) (gate_key_missing e)
  · intro hA hne
    have hbe : e.current_key.isEmpty = false := by
      rw [Bool.eq_false_iff]
      intro hc
      exact hne ((String.isEmpty_iff e.current_key).mp hc)
    simp [public_session_gate, hA, hbe]
  · intro hA
    simp [public_session_gate, hA]

/-- Witness for C1 at concrete inputs: with no stored key and an active
tunnel, the gate adopts the request's (lesson, date) and the request
proceeds. -/
theorem public_session_gate_witness :
    public_session_gate
      { active_public_key := "", current_key := "5:2025-03-01",
        snap_active := true, snap_public_url := "https://q.lhr.life",
        snap_public_host := "q.lhr.life", request_hosts := ["203.0.113.9"],
        key_exists := fun _ => false }
      = { rejected := false, new_active_key := "5:2025-03-01", adopted := true } := by
  exact (public_session_gate_spec
    { active_public_key := "", current_key := "5:2025-03-01",
      snap_active := true, snap_public_url := "https://q.lhr.life",
      snap_public_host := "q.lhr.life", request_hosts := ["203.0.113.9"],
      key_exists := fun _ => false }).2.1 (by rfl) (by decide)

end EduRating
